import Mathlib

/-!
Shallow embedding of the pricing & conversion calculator of this repository.

JavaScript numbers are modelled as rationals (ℚ): every constant in the
source (453.592, 28.3495, 1/16, the tier thresholds and rates) is an exact
decimal, so the arithmetic of the tools is captured exactly.
`Number.prototype.toFixed(2)` — applied by the source at the output
boundary — is modelled by `round2`, rounding to the nearest hundredth;
JavaScript `%` and `Math.floor` are modelled by `jsMod` and `Int.floor`.
String outputs (tier labels, the `"N%" / "None"` discount field) are kept
as Lean `String`s.
-/

namespace GoldStandard

/-- JavaScript truncation toward zero (the rounding used by the `%` operator). -/
def jsTrunc (x : ℚ) : ℤ := if 0 ≤ x then ⌊x⌋ else ⌈x⌉

/-- JavaScript remainder `a % b`: `a - b * trunc (a / b)`. -/
def jsMod (a b : ℚ) : ℚ := a - b * (jsTrunc (a / b) : ℚ)

/-- `Number.prototype.toFixed(2)` read back as a rational: round to the
nearest hundredth.  All concrete values appearing in the claims are exact
hundredths, where every rounding mode agrees. -/
def round2 (x : ℚ) : ℚ := (⌊x * 100 + 1 / 2⌋ : ℚ) / 100

/-- The unit enumeration of `bulk_pricing_calculator` (`z.enum(['g','oz','lb'])`). -/
inductive BUnit
  | g
  | oz
  | lb
  deriving DecidableEq, Repr

/-- The unit enumeration of `weight_conversion` (`z.enum(['g','oz','lb','kg'])`). -/
inductive WUnit
  | g
  | oz
  | lb
  | kg
  deriving DecidableEq, Repr

/-- The bulk calculator's units as weight-conversion units. -/
def BUnit.toW : BUnit → WUnit
  | .g => .g
  | .oz => .oz
  | .lb => .lb

/-- `conversionFactors` of `bulk_pricing_calculator` (factors to pounds). -/
def conversionFactors : BUnit → ℚ
  | .g => 1 / 453.592
  | .oz => 1 / 16
  | .lb => 1

/-- `toGrams` of `weight_conversion` (factors to grams). -/
def toGrams : WUnit → ℚ
  | .g => 1
  | .oz => 28.3495
  | .lb => 453.592
  | .kg => 1000

/-- The §4.1 converter: `grams = fromWeight * toGrams[fromUnit]`, then
`result = grams / toGrams[toUnit]` (`weight_conversion`, inventory-analysis.ts). -/
def convert (quantity : ℚ) (fromUnit toUnit : WUnit) : ℚ :=
  quantity * toGrams fromUnit / toGrams toUnit

/-- A volume-discount tier: percentage and label. -/
structure Tier where
  discountRate : ℕ
  label : String
  deriving DecidableEq, Repr

/-- The §4.3 tier resolver: the `if (pounds >= 100) … else if … else` chain of
`bulk_pricing_calculator` (part_000), descending thresholds, first match wins. -/
def resolveTier (pounds : ℚ) : Tier :=
  if pounds ≥ 100 then ⟨15, "Master 2 (100lbs+)"⟩
  else if pounds ≥ 50 then ⟨10, "Master (50lbs+)"⟩
  else if pounds ≥ 25 then ⟨5, "Distro (25lbs+)"⟩
  else ⟨0, "Standard Pricing"⟩

/-- The record returned by `bulk_pricing_calculator`; the `breakdown` object is
flattened, and the `toFixed(2)` string fields are carried as their numeric
values (`round2`), the `"N%"` discount string as the number `N`. -/
structure BulkResult where
  originalPrice : ℚ
  discountedPrice : ℚ
  discountRate : ℕ
  tier : String
  totalSavings : ℚ
  pounds : ℚ
  unitPrice : ℚ
  totalPrice : ℚ
  deriving DecidableEq, Repr

/-- `bulk_pricing_calculator.execute` (part_000): convert to pounds, resolve the
discount tier, apply the percentage to the base price, and report savings and
total against the original quantity.  The zod schema checks only that
`basePrice` and `quantity` are numbers: no positivity validation exists. -/
def bulkPricingCalculator (basePrice quantity : ℚ) (unit : BUnit) : BulkResult :=
  let pounds := quantity * conversionFactors unit
  let t := resolveTier pounds
  let discountedPrice := basePrice * (1 - (t.discountRate : ℚ) / 100)
  let totalSavings := (basePrice - discountedPrice) * quantity
  { originalPrice := basePrice
    discountedPrice := round2 discountedPrice
    discountRate := t.discountRate
    tier := t.label
    totalSavings := round2 totalSavings
    pounds := round2 pounds
    unitPrice := round2 discountedPrice
    totalPrice := round2 (discountedPrice * quantity) }

/-- The `breakdown` object of `weight_conversion`: sub-unit counts and the
`remaining` field (whose `toFixed(2)` is carried as `round2`). -/
structure Breakdown where
  eighths : ℤ
  quarters : ℤ
  halfOunces : ℤ
  ounces : ℤ
  remaining : ℚ
  deriving DecidableEq, Repr

/-- The §4.2 decomposition, as computed inline by `weight_conversion` on its
converted `result`: independent floors against the original value, and
`result % 28` for the remainder. -/
def decompose (result : ℚ) : Breakdown :=
  { eighths := ⌊result / 3.5⌋
    quarters := ⌊result / 7⌋
    halfOunces := ⌊result / 14⌋
    ounces := ⌊result / 28⌋
    remaining := round2 (jsMod result 28) }

/-- The bulk-discount computation of `weight_conversion`: `bulkDiscount`
starts at 0 and the threshold chain runs only when `bulkPricing` is set and
the target unit is pounds. -/
def wBulkRate (bulkPricing : Bool) (toUnit : WUnit) (result : ℚ) : ℕ :=
  if bulkPricing = true ∧ toUnit = WUnit.lb then
    if result ≥ 100 then 15
    else if result ≥ 50 then 10
    else if result ≥ 25 then 5
    else 0
  else 0

/-- The record returned by `weight_conversion`; the `original` and `converted`
interpolated strings are carried as their numeric value and unit. -/
structure ConvResult where
  originalWeight : ℚ
  originalUnit : WUnit
  converted : ℚ
  convertedUnit : WUnit
  bulkDiscount : String
  breakdown : Breakdown
  deriving DecidableEq, Repr

/-- `weight_conversion.execute` (inventory-analysis.ts): convert via grams,
optionally resolve a bulk discount, and decompose the converted result into
retail sub-units. -/
def weightConversion (fromWeight : ℚ) (fromUnit toUnit : WUnit)
    (bulkPricing : Bool) : ConvResult :=
  let result := convert fromWeight fromUnit toUnit
  let bulkDiscount := wBulkRate bulkPricing toUnit result
  { originalWeight := fromWeight
    originalUnit := fromUnit
    converted := round2 result
    convertedUnit := toUnit
    bulkDiscount := if bulkDiscount > 0 then toString bulkDiscount ++ "%" else "None"
    breakdown := decompose result }

end GoldStandard

namespace GoldStandard

/-- Every unit's gram factor is nonzero (helper shared by the converter proofs). -/
theorem toGrams_ne_zero (u : WUnit) : toGrams u ≠ 0 := by
  cases u <;> norm_num [toGrams]

/-- Claim C1, counterexample: at basePrice = -45 ≤ 0 and quantity = -1 ≤ 0 the
bulk pricing calculator does not fail — it computes pounds (-1), resolves the
Standard tier, and returns a full result record, contradicting the claim that
such a call fails with InvalidInput before any computation and produces no
result record. -/
theorem bulkCalc_no_validation : bulkPricingCalculator (-45) (-1) BUnit.lb =
    ⟨-45, -45, 0, "Standard Pricing", 0, -1, -45, 45⟩ := by
  norm_num [bulkPricingCalculator, resolveTier, conversionFactors, round2]

/-- Claim C1, amended: the bulk pricing calculator performs no positivity
validation; a call with basePrice ≤ 0 or quantity ≤ 0 runs the same
computation of pounds, tier and prices as any other call and produces a
result record. -/
theorem bulkCalc_nonpositive_computes (b q : ℚ) (u : BUnit) (h : b ≤ 0 ∨ q ≤ 0) :
    (bulkPricingCalculator b q u).pounds = round2 (q * conversionFactors u) ∧
      (bulkPricingCalculator b q u).tier =
        (resolveTier (q * conversionFactors u)).label ∧
      (bulkPricingCalculator b q u).discountRate =
        (resolveTier (q * conversionFactors u)).discountRate ∧
      (bulkPricingCalculator b q u).discountedPrice =
        round2 (b * (1 - ((resolveTier (q * conversionFactors u)).discountRate : ℚ) / 100)) ∧
      (bulkPricingCalculator b q u).totalPrice =
        round2 (b * (1 - ((resolveTier (q * conversionFactors u)).discountRate : ℚ) / 100) * q) :=
  ⟨rfl, rfl, rfl, rfl, rfl⟩

/-- Witness for `bulkCalc_nonpositive_computes` at basePrice -45, quantity -1. -/
theorem bulkCalc_nonpositive_computes_witness :
    ((-45 : ℚ) ≤ 0 ∨ (-1 : ℚ) ≤ 0) ∧
      (bulkPricingCalculator (-45) (-1) BUnit.lb).tier =
        (resolveTier ((-1) * conversionFactors BUnit.lb)).label :=
  ⟨Or.inl (by norm_num),
    (bulkCalc_nonpositive_computes (-45) (-1) BUnit.lb (Or.inl (by norm_num))).2.1⟩

/-- Claim C2: for a valid call (basePrice > 0, quantity > 0) the outputs obey
discountedUnitPrice = basePrice * (1 - discountPercent/100),
totalPrice = discountedUnitPrice * quantity (original quantity, not pounds) and
totalSavings = (basePrice - discountedUnitPrice) * quantity, each rounded to
2 decimals at the output boundary exactly as the source's toFixed(2); and
priceBulk(45, 50, lb) yields pounds 50, tier "Master (50lbs+)", rate 10,
discountedUnitPrice 40.50, totalPrice 2025.00, totalSavings 225.00. -/
theorem priceBulk_formulas (b q : ℚ) (u : BUnit) (hb : 0 < b) (hq : 0 < q) :
    (bulkPricingCalculator b q u).discountedPrice =
        round2 (b * (1 - ((resolveTier (q * conversionFactors u)).discountRate : ℚ) / 100)) ∧
      (bulkPricingCalculator b q u).totalPrice =
        round2 (b * (1 - ((resolveTier (q * conversionFactors u)).discountRate : ℚ) / 100) * q) ∧
      (bulkPricingCalculator b q u).totalSavings =
        round2 ((b - b * (1 - ((resolveTier (q * conversionFactors u)).discountRate : ℚ) / 100)) * q) ∧
      bulkPricingCalculator 45 50 BUnit.lb =
        ⟨45, 40.5, 10, "Master (50lbs+)", 225, 50, 40.5, 2025⟩ :=
  ⟨rfl, rfl, rfl, by norm_num [bulkPricingCalculator, resolveTier, conversionFactors, round2]⟩

/-- Witness for `priceBulk_formulas` at the spec's scenario 45, 50, lb. -/
theorem priceBulk_formulas_witness :
    (0 : ℚ) < 45 ∧ (0 : ℚ) < 50 ∧
      bulkPricingCalculator 45 50 BUnit.lb =
        ⟨45, 40.5, 10, "Master (50lbs+)", 225, 50, 40.5, 2025⟩ :=
  ⟨by norm_num, by norm_num,
    (priceBulk_formulas 45 50 BUnit.lb (by norm_num) (by norm_num)).2.2.2⟩

/-- Claim C3: on the units the bulk calculator accepts (g, oz, lb), its own
factor table (1/453.592, 1/16, 1) computes exactly the §4.1 conversion to
pounds via the gram-factor table (1, 28.3495, 453.592): the two tables are
equivalent. -/
theorem bulk_factor_refines_convert (u : BUnit) (q : ℚ) (hq : 0 ≤ q) :
    q * conversionFactors u = convert q u.toW WUnit.lb := by
  cases u <;> simp [conversionFactors, convert, toGrams, BUnit.toW] <;> ring_nf

/-- Witness for `bulk_factor_refines_convert` at 32 ounces. -/
theorem bulk_factor_refines_convert_witness :
    (0 : ℚ) ≤ 32 ∧ (32 : ℚ) * conversionFactors BUnit.oz =
      convert 32 BUnit.oz.toW WUnit.lb :=
  ⟨by norm_num, bulk_factor_refines_convert BUnit.oz 32 (by norm_num)⟩

/-- Claim C4: the tier boundaries are exact — resolveTier 25 = Distro/5,
resolveTier 24.999 = Standard/0, resolveTier 50 = Master/10,
resolveTier 100 = Master 2/15 — and for every non-negative pound value
exactly one tier applies, determined by the descending thresholds with the
first match winning. -/
theorem resolveTier_boundaries (p : ℚ) (hp : 0 ≤ p) :
    resolveTier 25 = ⟨5, "Distro (25lbs+)"⟩ ∧
      resolveTier 24.999 = ⟨0, "Standard Pricing"⟩ ∧
      resolveTier 50 = ⟨10, "Master (50lbs+)"⟩ ∧
      resolveTier 100 = ⟨15, "Master 2 (100lbs+)"⟩ ∧
      ((100 ≤ p ∧ resolveTier p = ⟨15, "Master 2 (100lbs+)"⟩) ∨
        (50 ≤ p ∧ p < 100 ∧ resolveTier p = ⟨10, "Master (50lbs+)"⟩) ∨
        (25 ≤ p ∧ p < 50 ∧ resolveTier p = ⟨5, "Distro (25lbs+)"⟩) ∨
        (p < 25 ∧ resolveTier p = ⟨0, "Standard Pricing"⟩)) := by
  refine ⟨by norm_num [resolveTier], by norm_num [resolveTier],
    by norm_num [resolveTier], by norm_num [resolveTier], ?_⟩
  by_cases h1 : (100 : ℚ) ≤ p
  · exact Or.inl ⟨h1, by simp [resolveTier, ge_iff_le, h1]⟩
  · by_cases h2 : (50 : ℚ) ≤ p
    · exact Or.inr (Or.inl ⟨h2, by linarith, by simp [resolveTier, ge_iff_le, h1, h2]⟩)
    · by_cases h3 : (25 : ℚ) ≤ p
      · exact Or.inr (Or.inr (Or.inl ⟨h3, by linarith,
          by simp [resolveTier, ge_iff_le, h1, h2, h3]⟩))
      · exact Or.inr (Or.inr (Or.inr ⟨by linarith,
          by simp [resolveTier, ge_iff_le, h1, h2, h3]⟩))

/-- Witness for `resolveTier_boundaries` at p = 0. -/
theorem resolveTier_boundaries_witness :
    (0 : ℚ) ≤ 0 ∧ resolveTier 50 = ⟨10, "Master (50lbs+)"⟩ :=
  ⟨le_rfl, (resolveTier_boundaries 0 le_rfl).2.2.1⟩

/-- Claim C5: for a non-negative gram quantity, each sub-unit count is the
independent floor of the quantity by that sub-unit's gram size (3.5, 7, 14,
28), all counts are non-negative, the remainder is the quantity modulo 28
(rounded to 2 decimals at the output boundary, as the source's toFixed) and
the modulo value lies in [0, 28); and decompose 700 = (200, 100, 50, 25, 0). -/
theorem decompose_props (q : ℚ) (hq : 0 ≤ q) :
    (decompose q).eighths = ⌊q / 3.5⌋ ∧
      (decompose q).quarters = ⌊q / 7⌋ ∧
      (decompose q).halfOunces = ⌊q / 14⌋ ∧
      (decompose q).ounces = ⌊q / 28⌋ ∧
      0 ≤ (decompose q).eighths ∧ 0 ≤ (decompose q).quarters ∧
      0 ≤ (decompose q).halfOunces ∧ 0 ≤ (decompose q).ounces ∧
      (decompose q).remaining = round2 (jsMod q 28) ∧
      jsMod q 28 = q - 28 * (⌊q / 28⌋ : ℚ) ∧
      0 ≤ jsMod q 28 ∧ jsMod q 28 < 28 ∧
      decompose 700 = ⟨200, 100, 50, 25, 0⟩ := by
  have hmod : jsMod q 28 = q - 28 * (⌊q / 28⌋ : ℚ) := by
    rw [jsMod, jsTrunc, if_pos (by positivity : (0 : ℚ) ≤ q / 28)]
  have hfl : (⌊q / 28⌋ : ℚ) ≤ q / 28 := Int.floor_le _
  have hfu : q / 28 < (⌊q / 28⌋ : ℚ) + 1 := Int.lt_floor_add_one _
  refine ⟨rfl, rfl, rfl, rfl,
    Int.floor_nonneg.mpr (by positivity), Int.floor_nonneg.mpr (by positivity),
    Int.floor_nonneg.mpr (by positivity), Int.floor_nonneg.mpr (by positivity),
    rfl, hmod, by rw [hmod]; linarith, by rw [hmod]; linarith,
    by norm_num [decompose, jsMod, jsTrunc, round2, Int.floor_eq_iff]⟩

/-- Witness for `decompose_props` at the spec's scenario q = 700. -/
theorem decompose_props_witness :
    (0 : ℚ) ≤ 700 ∧ decompose 700 = ⟨200, 100, 50, 25, 0⟩ :=
  ⟨by norm_num, (decompose_props 700 (by norm_num)).2.2.2.2.2.2.2.2.2.2.2.2⟩

/-- Claim C6: converting q ≥ 0 from U to V and back recovers q — exactly in
the rational model, hence in particular within the claimed 1e-9 relative
tolerance. -/
theorem convert_round_trip (U V : WUnit) (q : ℚ) (hq : 0 ≤ q) :
    convert (convert q U V) V U = q ∧
      |convert (convert q U V) V U - q| ≤ 1 / 1000000000 * q := by
  have hU := toGrams_ne_zero U
  have hV := toGrams_ne_zero V
  have h : convert (convert q U V) V U = q := by
    unfold convert
    field_simp
  refine ⟨h, ?_⟩
  rw [h, sub_self, abs_zero]
  exact mul_nonneg (by norm_num) hq

/-- Witness for `convert_round_trip` with 5 grams through kilograms. -/
theorem convert_round_trip_witness :
    (0 : ℚ) ≤ 5 ∧ convert (convert 5 WUnit.g WUnit.kg) WUnit.kg WUnit.g = 5 :=
  ⟨by norm_num, (convert_round_trip WUnit.g WUnit.kg 5 (by norm_num)).1⟩

/-- Claim C7: the discount percentage is monotone — for 0 ≤ p1 < p2 the tier
resolved at p1 never discounts more than the tier resolved at p2. -/
theorem resolveTier_monotone (p1 p2 : ℚ) (h0 : 0 ≤ p1) (h : p1 < p2) :
    (resolveTier p1).discountRate ≤ (resolveTier p2).discountRate := by
  unfold resolveTier
  split_ifs <;> simp_all <;> first | omega | linarith

/-- Witness for `resolveTier_monotone` at p1 = 0, p2 = 200. -/
theorem resolveTier_monotone_witness :
    (0 : ℚ) ≤ 0 ∧ (0 : ℚ) < 200 ∧
      (resolveTier 0).discountRate ≤ (resolveTier 200).discountRate :=
  ⟨le_rfl, by norm_num, resolveTier_monotone 0 200 le_rfl (by norm_num)⟩

/-- Claim C8: converting a quantity to its own unit is exactly the identity,
because the algorithm multiplies and divides by the same nonzero factor. -/
theorem convert_identity (U : WUnit) (q : ℚ) (hq : 0 ≤ q) : convert q U U = q := by
  rw [convert, mul_div_assoc, div_self (toGrams_ne_zero U), mul_one]

/-- Witness for `convert_identity` at 7 ounces. -/
theorem convert_identity_witness :
    (0 : ℚ) ≤ 7 ∧ convert 7 WUnit.oz WUnit.oz = 7 :=
  ⟨by norm_num, convert_identity WUnit.oz 7 (by norm_num)⟩

/-- Claim C9: the sub-unit breakdown is computed from the converted result in
the target unit, not from grams: the gram-based decomposition arises exactly
when the target unit is gram, and for the same mass the counts depend on the
target unit — 25 lb converted to kg gives eighths = 3 while converted to g it
gives eighths = 3239. -/
theorem breakdown_from_converted (q : ℚ) (fU tU : WUnit) (bp : Bool) :
    (weightConversion q fU tU bp).breakdown = decompose (convert q fU tU) ∧
      (tU = WUnit.g →
        (weightConversion q fU tU bp).breakdown = decompose (q * toGrams fU)) ∧
      (weightConversion 25 WUnit.lb WUnit.kg false).breakdown.eighths = 3 ∧
      (weightConversion 25 WUnit.lb WUnit.g false).breakdown.eighths = 3239 := by
  refine ⟨rfl, ?_, ?_, ?_⟩
  · intro h
    subst h
    have : convert q fU WUnit.g = q * toGrams fU := by
      rw [convert]
      simp [toGrams]
    rw [show (weightConversion q fU WUnit.g bp).breakdown =
      decompose (convert q fU WUnit.g) from rfl, this]
  · norm_num [weightConversion, convert, toGrams, decompose, Int.floor_eq_iff]
  · norm_num [weightConversion, convert, toGrams, decompose, Int.floor_eq_iff]

/-- Witness for `breakdown_from_converted` at 10 oz converted to grams. -/
theorem breakdown_from_converted_witness :
    (weightConversion 10 WUnit.oz WUnit.g true).breakdown =
      decompose (10 * toGrams WUnit.oz) :=
  (breakdown_from_converted 10 WUnit.oz WUnit.g true).2.1 rfl

/-- Claim C10: the weight-conversion tool reports a bulk discount only when the
bulkPricing flag is set and the target unit is pounds, in which case the
discount string is determined by the 100/50/25 thresholds on the converted
pound value (with 0 reported as "None"); for every other flag/unit combination
the reported discount is "None" regardless of the converted mass. -/
theorem bulkDiscount_only_for_pounds (q : ℚ) (fU tU : WUnit) (bp : Bool) :
    (bp = true ∧ tU = WUnit.lb →
        (weightConversion q fU tU bp).bulkDiscount =
          (if 100 ≤ convert q fU tU then "15%"
            else if 50 ≤ convert q fU tU then "10%"
              else if 25 ≤ convert q fU tU then "5%" else "None")) ∧
      (¬(bp = true ∧ tU = WUnit.lb) →
        (weightConversion q fU tU bp).bulkDiscount = "None") := by
  constructor
  · rintro ⟨hb, ht⟩
    subst hb
    subst ht
    simp only [weightConversion, wBulkRate, ge_iff_le, and_self, if_true, if_pos trivial]
    split_ifs <;> first | rfl | simp_all
  · intro h
    simp [weightConversion, wBulkRate, h]

/-- Witness for `bulkDiscount_only_for_pounds` at 100 lb → lb with the flag set. -/
theorem bulkDiscount_only_for_pounds_witness :
    (weightConversion 100 WUnit.lb WUnit.lb true).bulkDiscount = "15%" := by
  have h := (bulkDiscount_only_for_pounds 100 WUnit.lb WUnit.lb true).1 ⟨rfl, rfl⟩
  rw [h]
  norm_num [convert, toGrams]

end GoldStandard
